import Mathlib

/-!
Shallow embedding of `src/python/backtest.py` (TraidQuant).

A pandas `DataFrame` is modelled as an ordered list of named columns whose
cells are `Option ℚ`: `none` models a non-finite float cell (NaN, the missing
marker produced by pandas, and the non-finite results of IEEE division by
zero), `some q` a finite numeric value.  Stateful pandas column assignment is
modelled by explicit state passing (`runBacktestCore` returns the mutated
frame).  Fallible Python code is modelled with `Except`/`Option`: a raised
exception is an `Except.error`, a caught one becomes the `None` return value
of the source.  External engines (R via rpy2, MATLAB via matlab.engine) are
out-of-process collaborators; their outcomes enter the model as explicit
oracle arguments.
-/

namespace TraidQuant

/-- A dataframe cell: `none` is pandas' missing marker (NaN). -/
abbrev Cell := Option ℚ

/-- Model of a pandas DataFrame: ordered named columns of cells. -/
structure DataFrame where
  cols : List (String × List Cell)
deriving DecidableEq

/-- Column lookup, `df[name]`; `none` models a `KeyError`. -/
def DataFrame.getCol (df : DataFrame) (name : String) : Option (List Cell) :=
  (df.cols.find? (fun c => c.1 == name)).map (fun c => c.2)

/-- Helper for column assignment: replace the first column with this name
in place, or append a new column at the end (pandas `df[name] = v`). -/
def setColAux : List (String × List Cell) → String → List Cell → List (String × List Cell)
  | [], name, v => [(name, v)]
  | c :: rest, name, v =>
      if c.1 == name then (name, v) :: rest else c :: setColAux rest name v

/-- Column assignment `df[name] = v` (returns the mutated frame). -/
def DataFrame.setCol (df : DataFrame) (name : String) (v : List Cell) : DataFrame :=
  ⟨setColAux df.cols name v⟩

/-- `len(df)`: the number of rows (length of the first column; 0 if no columns). -/
def DataFrame.nrows (df : DataFrame) : ℕ :=
  match df.cols with
  | [] => 0
  | c :: _ => c.2.length

/-- Well-formedness: every column has the same length (pandas invariant). -/
def DataFrame.Wf (df : DataFrame) : Prop :=
  ∀ c ∈ df.cols, c.2.length = df.nrows

instance (df : DataFrame) : Decidable df.Wf := by
  unfold DataFrame.Wf; infer_instance

/-- Mean of the defined cells of a column (`df[col].mean()`), `none` if the
column has no defined cell (pandas gives NaN there). -/
def colMean (xs : List Cell) : Option ℚ :=
  let vals := xs.filterMap id
  if vals.length = 0 then none else some (vals.sum / vals.length)

/-- Fill the missing cells of a column with a fill value (`fillna`); a `none`
fill value leaves the missing cells missing, as pandas does. -/
def fillCol (xs : List Cell) (m : Option ℚ) : List Cell :=
  xs.map (fun c => match c with | some v => some v | none => m)

/-- `df.fillna(df.mean())`: each column's missing cells are filled with that
column's mean over its defined cells. -/
def DataFrame.fillna (df : DataFrame) : DataFrame :=
  ⟨df.cols.map (fun c => (c.1, fillCol c.2 (colMean c.2)))⟩

/-- `series.rolling(window=5).mean()`: at index `i` the mean of the cells in
the trailing window of the last five positions; pandas' default
`min_periods = window` makes the result defined only when the window is full
(`i ≥ 4`) and every cell in it is defined. -/
def rollingMean5 (xs : List Cell) : List Cell :=
  (List.range xs.length).map (fun i =>
    if 4 ≤ i then
      let w := (xs.take (i + 1)).drop (i - 4)
      if w.all (fun c => c.isSome) then some ((w.filterMap id).sum / 5) else none
    else none)

/-- The body of `preprocess_data`'s `try` block: fill missing values with
column means, then append the `MA_5` moving-average feature over `Close`.
A missing `Close` column raises (`Except.error` models the `KeyError`). -/
def preprocessBody (df : DataFrame) : Except String DataFrame :=
  let filled := df.fillna
  match filled.getCol "Close" with
  | none => Except.error "KeyError: Close"
  | some close => Except.ok (filled.setCol "MA_5" (rollingMean5 close))

/-- `preprocess_data(df)`: returns `None` when the input is `None`, catches
every exception of the body and converts it to a `None` return. -/
def preprocess_data (odf : Option DataFrame) : Option DataFrame :=
  match odf with
  | none => none
  | some df => (preprocessBody df).toOption

/-- Exception-explicit rendering of `preprocess_data`: the value is what the
caller receives, an `Except.error` would be an exception escaping the
function.  The `except Exception` clause maps every error of the body to a
returned `None`, so no error is ever produced. -/
def preprocess_data_checked (odf : Option DataFrame) : Except String (Option DataFrame) :=
  match odf with
  | none => Except.ok none
  | some df =>
      match preprocessBody df with
      | Except.ok out => Except.ok (some out)
      | Except.error _ => Except.ok none

/-! ## Strategy backtest engine (`run_backtest`) -/

/-- `np.where(ma > close, 1, -1)` cell comparison: a NaN operand compares
as `False`, so the comparison is true only when both cells are defined and
the first strictly exceeds the second. -/
def optGtB (a b : Cell) : Bool :=
  match a, b with
  | some x, some y => decide (y < x)
  | _, _ => false

/-- `df['Position'] = np.where(df['MA_5'] > df['Close'], 1, -1)`:
Long (+1) where the comparison holds, Short (-1) everywhere else. -/
def positionSignal (ma close : List Cell) : List ℤ :=
  (ma.zip close).map (fun p => if optGtB p.1 p.2 then 1 else -1)

/-- `series.shift(1)`: lag by one row, the first row becoming missing. -/
def shiftOne (xs : List ℤ) : List (Option ℤ) :=
  (none :: xs.map some).take xs.length

/-- `series.pct_change()` (no forward fill): row `i` holds
`(x[i] - x[i-1]) / x[i-1]`, missing at row 0 and wherever an operand is
missing; an IEEE division by a zero previous value yields a non-finite
float, folded into the missing marker of the model. -/
def pctChange (xs : List Cell) : List Cell :=
  (none :: (xs.zip xs.tail).map (fun p =>
    match p.1, p.2 with
    | some pv, some cv => if pv = 0 then none else some ((cv - pv) / pv)
    | _, _ => none)).take xs.length

/-- `df['Strategy_Returns'] = df['Lagged_Position'] * df['Returns']`:
missing wherever either operand is missing. -/
def strategyReturns (lagged : List (Option ℤ)) (rets : List Cell) : List Cell :=
  List.zipWith (fun l r =>
    match l, r with
    | some lv, some rv => some ((lv : ℚ) * rv)
    | _, _ => none) lagged rets

/-- `(s + 1).cumprod()` with pandas' `skipna` semantics: a missing entry
stays missing in the output but does not interrupt the running product of
the defined entries. -/
def cumulGross : ℚ → List Cell → List Cell
  | _, [] => []
  | acc, none :: rest => none :: cumulGross acc rest
  | acc, some v :: rest => some (acc * (1 + v)) :: cumulGross (acc * (1 + v)) rest

/-- `(df['Strategy_Returns'] + 1).cumprod() - 1`. -/
def cumulativeReturns (strat : List Cell) : List Cell :=
  (cumulGross 1 strat).map (fun c => c.map (fun g => g - 1))

/-- The defined values of a series, in order (what pandas' `skipna`
reductions operate on). -/
def definedVals (xs : List Cell) : List ℚ := xs.filterMap id

/-- Sample variance with `ddof = 1` over the defined values (the square of
pandas' `series.std()`); missing (NaN) with fewer than two values. -/
def sampleVar (vs : List ℚ) : Option ℚ :=
  if vs.length < 2 then none
  else
    let m := vs.sum / (vs.length : ℚ)
    some ((vs.map (fun v => (v - m) ^ 2)).sum / ((vs.length : ℚ) - 1))

/-- `df['Strategy_Returns'].std() * np.sqrt(252)`: the annualized
volatility, missing when the standard deviation is (fewer than two defined
strategy returns). -/
noncomputable def annualizedVol (strat : List Cell) : Option ℝ :=
  (sampleVar (definedVals strat)).map (fun v => Real.sqrt (v : ℝ) * Real.sqrt 252)

/-- `(total_return + 1) ** (252 / len(df)) - 1`: numpy's float power is NaN
for a negative base with a non-integral exponent (here: when
`1 + total_return < 0` and the row count does not divide 252), and
propagates a NaN base. -/
noncomputable def averageAnnualReturn (tr : Option ℚ) (n : ℕ) : Option ℝ :=
  tr.bind (fun t =>
    if 1 + t < 0 ∧ ¬ 252 % n = 0 then none
    else some (Real.rpow ((1 + t : ℚ) : ℝ) ((252 : ℝ) / (n : ℝ)) - 1))

/-- `average_annual_return / annualized_volatility if annualized_volatility > 0
else 0`: a NaN volatility fails the comparison (giving 0), a positive one
divides — propagating a NaN numerator. -/
noncomputable def sharpeClip (aar vol : Option ℝ) : Option ℝ :=
  match vol with
  | some v =>
      if 0 < v then
        match aar with
        | some a => some (a / v)
        | none => none
      else some 0
  | none => some 0

/-- An integer position series as a dataframe column of cells. -/
def intCellCol (xs : List ℤ) : List Cell :=
  xs.map (fun z => some (Int.cast z : ℚ))

/-- A lagged (optional-integer) series as a dataframe column of cells. -/
def laggedCellCol (xs : List (Option ℤ)) : List Cell :=
  xs.map (fun l => l.map (fun z => (Int.cast z : ℚ)))

/-- The value object built by `run_backtest` (the `results` dict). -/
structure BacktestResults where
  cumulative_returns : List Cell
  total_return : Option ℚ
  average_annual_return : Option ℝ
  annualized_volatility : Option ℝ
  sharpe_ratio : Option ℝ

/-- A default, all-missing metrics value (used only to state concrete
instances without binders). -/
def emptyMetrics : BacktestResults := ⟨[], none, none, none, none⟩

/-- The body of `run_backtest`'s `try` block, with the mutation of the
caller's dataframe made explicit: returns the mutated frame together with
either the metrics or the exception.  A missing required column raises
before any column is assigned; an empty dataset raises at
`cumulative_returns.iloc[-1]` after the four derived columns were already
assigned. -/
noncomputable def runBacktestCore (df : DataFrame) : DataFrame × Except String BacktestResults :=
  match df.getCol "MA_5", df.getCol "Close" with
  | some ma, some close =>
      let pos := positionSignal ma close
      let lagged := shiftOne pos
      let rets := pctChange close
      let strat := strategyReturns lagged rets
      let df4 :=
        (((df.setCol "Position" (intCellCol pos)).setCol
            "Lagged_Position" (laggedCellCol lagged)).setCol
            "Returns" rets).setCol "Strategy_Returns" strat
      let cum := cumulativeReturns strat
      match cum.getLast? with
      | none => (df4, Except.error "IndexError: single positional indexer is out-of-bounds")
      | some tr =>
          (df4, Except.ok
            { cumulative_returns := cum
              total_return := tr
              average_annual_return := averageAnnualReturn tr df.nrows
              annualized_volatility := annualizedVol strat
              sharpe_ratio := sharpeClip (averageAnnualReturn tr df.nrows) (annualizedVol strat) })
  | _, _ => (df, Except.error "KeyError: MA_5 or Close")

/-- `run_backtest(df)`: `None` in, `None` out; otherwise the body runs, its
exceptions are caught and become a `None` result, and the caller's frame
reference sees the mutations the body performed before returning or
raising. -/
noncomputable def run_backtest (odf : Option DataFrame) : Option DataFrame × Option BacktestResults :=
  match odf with
  | none => (none, none)
  | some df => (some (runBacktestCore df).1, (runBacktestCore df).2.toOption)

/-- The mutated dataframe left behind by `run_backtest` (the state of the
caller's object after the call). -/
noncomputable def backtestDf (df : DataFrame) : DataFrame := (runBacktestCore df).1

/-- Exception-explicit rendering of `run_backtest`: every error of the body
is caught by the `except Exception` clause, so the caller never observes an
exception. -/
noncomputable def run_backtest_checked (odf : Option DataFrame) :
    Except String (Option DataFrame × Option BacktestResults) :=
  match odf with
  | none => Except.ok (none, none)
  | some df =>
      match runBacktestCore df with
      | (df1, Except.ok r) => Except.ok (some df1, some r)
      | (df1, Except.error _) => Except.ok (some df1, none)

/-! ## External analysis adapters (`run_r_analysis`, `run_matlab_simulation`) -/

/-- A value of the raw R result (`r_result.items()`): either a plain R
value or a `ListVector` of named entries. -/
inductive RValue where
  | scalar (v : ℚ)
  | listVector (entries : List (String × ℚ))
deriving DecidableEq

/-- A value of the normalized result dictionary built by the R adapter:
a plain value or a nested mapping. -/
inductive ResultValue where
  | scalar (v : ℚ)
  | mapping (entries : List (String × ℚ))
deriving DecidableEq

/-- A normalized external-analysis result: a mapping from result name to a
value or a nested mapping (`result_dict`). -/
abbrev ExternalResult := List (String × ResultValue)

/-- The conversion loop of `run_r_analysis`: each `ListVector` becomes a
nested dictionary, every other value is kept as-is. -/
def convertRResult (raw : List (String × RValue)) : ExternalResult :=
  raw.map (fun e =>
    (e.1,
      match e.2 with
      | RValue.scalar v => ResultValue.scalar v
      | RValue.listVector kvs => ResultValue.mapping kvs))

/-- `run_r_analysis(df, r_script_path)`: `None` in, `None` out; the raw R
engine outcome (sourcing the script, converting the frame, and the
`perform_analysis` call — all out of process) enters as an oracle; any of
its failures is caught and becomes a `None` return, a success is normalized
by the conversion loop. -/
def run_r_analysis (odf : Option DataFrame)
    (rEngine : Except String (List (String × RValue))) : Option ExternalResult :=
  match odf with
  | none => none
  | some _ =>
      match rEngine with
      | Except.ok raw => some (convertRResult raw)
      | Except.error _ => none

/-- Exception-explicit rendering of `run_r_analysis`: the `except` clause
converts every engine failure into a returned `None`. -/
def run_r_analysis_checked (odf : Option DataFrame)
    (rEngine : Except String (List (String × RValue))) :
    Except String (Option ExternalResult) :=
  match odf with
  | none => Except.ok none
  | some _ =>
      match rEngine with
      | Except.ok raw => Except.ok (some (convertRResult raw))
      | Except.error _ => Except.ok none

/-- Outcome of one `run_matlab_simulation` invocation: the returned value
together with whether the external engine session was acquired
(`start_matlab` succeeded) and whether it was released (`eng.quit()` ran)
before the function returned. -/
structure MatlabOutcome where
  result : Option ExternalResult
  engineAcquired : Bool
  engineReleased : Bool
deriving DecidableEq

/-- `run_matlab_simulation(df, matlab_script_path)`, with the out-of-process
steps as oracles (`startFails`: `matlab.engine.start_matlab()` raises;
`structFails`: `eng.struct(...)` raises; `evalFails`: `eng.eval(...)`
raises; `engineResult`: the opaque value a successful `eng.eval` returns).
Control flow of the source: a `None` frame returns before anything runs; a
start failure is caught by the outer `except` with no session acquired;
`max()` over the column dictionary of a frame with no columns raises a
`ValueError` caught by the outer `except` after the session was acquired —
without `eng.quit()`; a struct-conversion failure is caught by the inner
`except`, which quits the engine and returns `None`; an `eval` failure
propagates to the outer `except` — which returns `None` without
`eng.quit()`; the success path quits and returns the engine value. -/
def run_matlab_simulation (odf : Option DataFrame)
    (startFails structFails evalFails : Bool) (engineResult : ExternalResult) :
    MatlabOutcome :=
  match odf with
  | none => ⟨none, false, false⟩
  | some df =>
      if startFails then ⟨none, false, false⟩
      else if df.cols.isEmpty then ⟨none, true, false⟩
      else if structFails then ⟨none, true, true⟩
      else if evalFails then ⟨none, true, false⟩
      else ⟨some engineResult, true, true⟩

/-- Exception-explicit rendering of `run_matlab_simulation`: every raise in
the body is caught (by the inner or the outer `except` clause), so no
invocation propagates an exception. -/
def run_matlab_simulation_checked (odf : Option DataFrame)
    (startFails structFails evalFails : Bool) (engineResult : ExternalResult) :
    Except String MatlabOutcome :=
  match odf with
  | none => Except.ok ⟨none, false, false⟩
  | some df =>
      if startFails then Except.ok ⟨none, false, false⟩
      else if df.cols.isEmpty then Except.ok ⟨none, true, false⟩
      else if structFails then Except.ok ⟨none, true, true⟩
      else if evalFails then Except.ok ⟨none, true, false⟩
      else Except.ok ⟨some engineResult, true, true⟩

/-! ## Pipeline controller (`main`) -/

/-- A value held by one field of the combined report dictionary. -/
inductive ReportValue where
  | external (r : ExternalResult)
  | backtest (b : BacktestResults)

/-- The `combined_results` dictionary of `main`, with its literal keys. -/
def combinedResults (r m : ExternalResult) (b : BacktestResults) :
    List (String × ReportValue) :=
  [("r_results", ReportValue.external r),
   ("matlab_results", ReportValue.external m),
   ("backtest_results", ReportValue.backtest b)]

/-- `main`: load (outcome given as an oracle — file parsing is out of
process), preprocess (abort on failure), run the two external adapters
(each failure degraded to an empty `{}` result), backtest (abort on
failure), and combine.  The model returns the combined report, `none` when
`main` exits before building it. -/
noncomputable def mainPipeline (loadResult : Option DataFrame)
    (rEngine : Except String (List (String × RValue)))
    (startFails structFails evalFails : Bool) (mEngine : ExternalResult) :
    Option (List (String × ReportValue)) :=
  match loadResult with
  | none => none
  | some df =>
      match preprocess_data (some df) with
      | none => none
      | some dfp =>
          let rRes := (run_r_analysis (some dfp) rEngine).getD []
          let mRes :=
            ((run_matlab_simulation (some dfp) startFails structFails evalFails mEngine).result).getD []
          match (run_backtest (some dfp)).2 with
          | none => none
          | some b => some (combinedResults rRes mRes b)

/-! ## Concrete datasets used by the claims -/

/-- The raw end-to-end scenario dataset: a single `Close` column
`[100, 102, 101, 105, 107, 106, 110]`. -/
def ex7raw : DataFrame :=
  ⟨[("Close", [some 100, some 102, some 101, some 105, some 107, some 106, some 110])]⟩

/-- The scenario dataset after the feature stage: `Close` unchanged (no
missing cell), `MA_5` appended with the first four rows missing. -/
def ex7p : DataFrame :=
  ⟨[("Close", [some 100, some 102, some 101, some 105, some 107, some 106, some 110]),
    ("MA_5", [none, none, none, none, some 103, some (521/5), some (529/5)])]⟩

/-- The moving-average column as the specification words it (for the
refinement claim about the feature stage): at each index `i` of the
dataset, undefined when `i < 4`, and otherwise the arithmetic mean of the
`Close` cells at indices `i-4` through `i` inclusive (undefined if any of
them is undefined). -/
def movingAverageSpec (close : List Cell) : List Cell :=
  (List.range close.length).map (fun i =>
    if 4 ≤ i then
      match close[i - 4]?, close[i - 3]?, close[i - 2]?, close[i - 1]?, close[i]? with
      | some (some a), some (some b), some (some c), some (some d), some (some e) =>
          some ((a + b + c + d + e) / 5)
      | _, _, _, _, _ => none
    else none)

/-- A one-row dataset with both required columns. -/
def ds1 : DataFrame := ⟨[("Close", [some 100]), ("MA_5", [none])]⟩

/-- A processed five-row dataset (the feature stage applied to the raw
`Close` column `[100, 300, 100, 100, 100]`) whose backtest has a positive
annualized volatility but a total return below `-1`. -/
def ds5p : DataFrame :=
  ⟨[("Close", [some 100, some 300, some 100, some 100, some 100]),
    ("MA_5", [none, none, none, none, some 140])]⟩

/-- A processed two-row dataset: only one strategy return is defined, so the
sample standard deviation (ddof 1) and hence the annualized volatility are
missing. -/
def ds2 : DataFrame := ⟨[("Close", [some 100, some 101]), ("MA_5", [none, none])]⟩

/-- A raw three-row dataset with one missing `Close` cell (to exercise the
mean imputation of the feature stage). -/
def exMraw : DataFrame := ⟨[("Close", [some 100, none, some 102])]⟩

/-- `exMraw` after the feature stage: the missing cell imputed with the
column mean 101, and an all-missing `MA_5` (fewer than five rows). -/
def exMp : DataFrame :=
  ⟨[("Close", [some 100, some 101, some 102]), ("MA_5", [none, none, none])]⟩

/-- The strategy-return series computed by the backtest from the two input
columns (the value assigned to `df['Strategy_Returns']`). -/
def stratSeries (ma close : List Cell) : List Cell :=
  strategyReturns (shiftOne (positionSignal ma close)) (pctChange close)

/-- The four derived columns assigned by `run_backtest`, in assignment
order. -/
def btMutate (df : DataFrame) (ma close : List Cell) : DataFrame :=
  (((df.setCol "Position" (intCellCol (positionSignal ma close))).setCol
      "Lagged_Position" (laggedCellCol (shiftOne (positionSignal ma close)))).setCol
      "Returns" (pctChange close)).setCol "Strategy_Returns" (stratSeries ma close)

/-- The metrics value `run_backtest` builds from a final cumulative entry
`tr`, the strategy series, and the row count. -/
noncomputable def btMetrics (strat : List Cell) (tr : Option ℚ) (n : ℕ) : BacktestResults :=
  { cumulative_returns := cumulativeReturns strat
    total_return := tr
    average_annual_return := averageAnnualReturn tr n
    annualized_volatility := annualizedVol strat
    sharpe_ratio := sharpeClip (averageAnnualReturn tr n) (annualizedVol strat) }

/-! ## Column access lemmas -/

theorem find?_setColAux_self (l : List (String × List Cell)) (n : String) (v : List Cell) :
    (setColAux l n v).find? (fun c => c.1 == n) = some (n, v) := by
  induction l with
  | nil => simp [setColAux, List.find?]
  | cons c rest ih =>
    by_cases hc : c.1 = n
    · simp only [setColAux]
      rw [if_pos (by simpa using hc)]
      exact List.find?_cons_of_pos _ (by simp)
    · simp only [setColAux]
      rw [if_neg (by simpa using hc),
        List.find?_cons_of_neg _ (by simpa using hc)]
      exact ih

theorem find?_setColAux_ne (l : List (String × List Cell)) (n m : String) (v : List Cell)
    (h : m ≠ n) :
    (setColAux l n v).find? (fun c => c.1 == m) = l.find? (fun c => c.1 == m) := by
  induction l with
  | nil =>
    simp only [setColAux, List.find?]
    rw [show (n == m) = false by simpa using fun hh => h hh.symm]
  | cons c rest ih =>
    by_cases hc : c.1 = n
    · simp only [setColAux]
      rw [if_pos (by simpa using hc),
        List.find?_cons_of_neg _ (by simpa using fun hh => h hh.symm),
        List.find?_cons_of_neg _ (by simp [hc]; simpa using fun hh => h hh.symm)]
    · simp only [setColAux]
      rw [if_neg (by simpa using hc)]
      by_cases hm : c.1 = m
      · rw [List.find?_cons_of_pos _ (by simpa using hm),
          List.find?_cons_of_pos _ (by simpa using hm)]
      · rw [List.find?_cons_of_neg _ (by simpa using hm),
          List.find?_cons_of_neg _ (by simpa using hm)]
        exact ih

theorem getCol_setCol_self (df : DataFrame) (n : String) (v : List Cell) :
    (df.setCol n v).getCol n = some v := by
  simp [DataFrame.getCol, DataFrame.setCol, find?_setColAux_self]

theorem getCol_setCol_ne (df : DataFrame) (n m : String) (v : List Cell) (h : m ≠ n) :
    (df.setCol n v).getCol m = df.getCol m := by
  simp [DataFrame.getCol, DataFrame.setCol, find?_setColAux_ne _ _ _ _ h]

theorem setColAux_setColAux (l : List (String × List Cell)) (n : String) (v w : List Cell) :
    setColAux (setColAux l n v) n w = setColAux l n w := by
  induction l with
  | nil => simp [setColAux]
  | cons c rest ih =>
    by_cases hc : c.1 = n
    · simp only [setColAux]
      rw [if_pos (by simpa using hc)]
      simp only [setColAux]
      rw [if_pos (by simp), if_pos (by simpa using hc)]
    · simp only [setColAux]
      rw [if_neg (by simpa using hc)]
      simp only [setColAux]
      rw [if_neg (by simpa using hc), ih, if_neg (by simpa using hc)]

theorem setCol_setCol (df : DataFrame) (n : String) (v w : List Cell) :
    (df.setCol n v).setCol n w = df.setCol n w := by
  simp [DataFrame.setCol, setColAux_setColAux]

theorem setColAux_eq_self (l : List (String × List Cell)) (n : String) (v : List Cell)
    (h : l.find? (fun c => c.1 == n) = some (n, v)) : setColAux l n v = l := by
  induction l with
  | nil => simp [List.find?] at h
  | cons c rest ih =>
    by_cases hc : c.1 = n
    · simp only [List.find?] at h
      rw [show (c.1 == n) = true by simpa using hc] at h
      simp only [setColAux]
      rw [if_pos (by simpa using hc)]
      have : c = (n, v) := by simpa using h
      rw [this]
    · simp only [List.find?] at h
      rw [show (c.1 == n) = false by simpa using hc] at h
      simp only [setColAux]
      rw [if_neg (by simpa using hc), ih (by simpa using h)]

theorem setCol_eq_self (df : DataFrame) (n : String) (v : List Cell)
    (h : df.getCol n = some v) : df.setCol n v = df := by
  simp only [DataFrame.getCol, Option.map_eq_some'] at h
  obtain ⟨c, hc, hv⟩ := h
  have hn : c.1 = n := by
    have := List.find?_some hc
    simpa using this
  have : c = (n, v) := by
    cases c; simp_all
  rw [this] at hc
  cases df
  simp [DataFrame.setCol, setColAux_eq_self _ _ _ hc]

theorem cols_ne_nil_of_getCol (df : DataFrame) (n : String) (v : List Cell)
    (h : df.getCol n = some v) : df.cols ≠ [] := by
  intro hnil
  rw [DataFrame.getCol, hnil] at h
  simp [List.find?] at h

theorem getCol_length_of_wf (df : DataFrame) (n : String) (v : List Cell)
    (h : df.getCol n = some v) (hwf : df.Wf) : v.length = df.nrows := by
  simp only [DataFrame.getCol, Option.map_eq_some'] at h
  obtain ⟨c, hc, hv⟩ := h
  have hmem : c ∈ df.cols := List.mem_of_find?_eq_some hc
  rw [← hv]
  exact hwf c hmem

theorem nrows_setCol (df : DataFrame) (n : String) (v : List Cell)
    (hne : df.cols ≠ []) (hv : v.length = df.nrows) : (df.setCol n v).nrows = df.nrows := by
  obtain ⟨c, rest, hc⟩ : ∃ c rest, df.cols = c :: rest := by
    cases h : df.cols with
    | nil => exact absurd h hne
    | cons c rest => exact ⟨c, rest, rfl⟩
  by_cases h1 : c.1 = n
  · have hs : (df.setCol n v).nrows = v.length := by
      simp [DataFrame.setCol, DataFrame.nrows, hc, setColAux, h1]
    rw [hs, hv]
  · have hs : (df.setCol n v).nrows = df.nrows := by
      simp only [DataFrame.setCol, hc, setColAux]
      rw [if_neg (by simpa using h1)]
      simp [DataFrame.nrows, hc]
    rw [hs]

/-! ## Length lemmas for the derived series -/

theorem positionSignal_length (ma close : List Cell) :
    (positionSignal ma close).length = min ma.length close.length := by
  simp [positionSignal]

theorem shiftOne_length (xs : List ℤ) : (shiftOne xs).length = xs.length := by
  simp [shiftOne]

theorem pctChange_length (xs : List Cell) : (pctChange xs).length = xs.length := by
  cases xs with
  | nil => simp [pctChange]
  | cons x rest => simp [pctChange]

theorem strategyReturns_length (lagged : List (Option ℤ)) (rets : List Cell) :
    (strategyReturns lagged rets).length = min lagged.length rets.length := by
  simp [strategyReturns]

theorem cumulGross_length (acc : ℚ) (xs : List Cell) :
    (cumulGross acc xs).length = xs.length := by
  induction xs generalizing acc with
  | nil => simp [cumulGross]
  | cons x rest ih =>
    cases x with
    | none => simp [cumulGross, ih]
    | some v => simp [cumulGross, ih]

theorem cumulativeReturns_length (strat : List Cell) :
    (cumulativeReturns strat).length = strat.length := by
  simp [cumulativeReturns, cumulGross_length]

/-! ## Characterization of `runBacktestCore` -/

theorem runBacktestCore_missing (df : DataFrame)
    (h : df.getCol "MA_5" = none ∨ df.getCol "Close" = none) :
    runBacktestCore df = (df, Except.error "KeyError: MA_5 or Close") := by
  cases h1 : df.getCol "MA_5" with
  | none => simp only [runBacktestCore, h1]
  | some ma =>
    have h2 : df.getCol "Close" = none := by
      rcases h with h | h
      · rw [h1] at h; cases h
      · exact h
    simp only [runBacktestCore, h1, h2]

theorem runBacktestCore_present (df : DataFrame) (ma close : List Cell)
    (hma : df.getCol "MA_5" = some ma) (hclose : df.getCol "Close" = some close) :
    runBacktestCore df =
      (btMutate df ma close,
        match (cumulativeReturns (stratSeries ma close)).getLast? with
        | none => Except.error "IndexError: single positional indexer is out-of-bounds"
        | some tr => Except.ok (btMetrics (stratSeries ma close) tr df.nrows)) := by
  simp only [runBacktestCore, hma, hclose, btMutate, btMetrics, stratSeries]
  cases (cumulativeReturns
      (strategyReturns (shiftOne (positionSignal ma close)) (pctChange close))).getLast? <;> rfl

/-! ## The mutation performed by `run_backtest` -/

theorem intCellCol_length (xs : List ℤ) : (intCellCol xs).length = xs.length := by
  simp [intCellCol]

theorem laggedCellCol_length (xs : List (Option ℤ)) : (laggedCellCol xs).length = xs.length := by
  simp [laggedCellCol]

theorem stratSeries_length (ma close : List Cell) (h : ma.length = close.length) :
    (stratSeries ma close).length = close.length := by
  simp [stratSeries, strategyReturns_length, shiftOne_length, positionSignal_length,
    pctChange_length, h]

theorem setCol_cols_ne_nil (df : DataFrame) (n : String) (v : List Cell) :
    (df.setCol n v).cols ≠ [] := by
  cases hc : df.cols with
  | nil => simp [DataFrame.setCol, hc, setColAux]
  | cons c rest =>
    simp only [DataFrame.setCol, hc, setColAux]
    by_cases h1 : c.1 = n
    · rw [if_pos (by simpa using h1)]; simp
    · rw [if_neg (by simpa using h1)]; simp

theorem getCol_btMutate_other (df : DataFrame) (ma close : List Cell) (nm : String)
    (h1 : nm ≠ "Position") (h2 : nm ≠ "Lagged_Position") (h3 : nm ≠ "Returns")
    (h4 : nm ≠ "Strategy_Returns") :
    (btMutate df ma close).getCol nm = df.getCol nm := by
  simp only [btMutate]
  rw [getCol_setCol_ne _ _ _ _ h4, getCol_setCol_ne _ _ _ _ h3,
    getCol_setCol_ne _ _ _ _ h2, getCol_setCol_ne _ _ _ _ h1]

theorem getCol_btMutate_position (df : DataFrame) (ma close : List Cell) :
    (btMutate df ma close).getCol "Position" = some (intCellCol (positionSignal ma close)) := by
  simp only [btMutate]
  rw [getCol_setCol_ne _ _ _ _ (by decide), getCol_setCol_ne _ _ _ _ (by decide),
    getCol_setCol_ne _ _ _ _ (by decide), getCol_setCol_self]

theorem getCol_btMutate_strat (df : DataFrame) (ma close : List Cell) :
    (btMutate df ma close).getCol "Strategy_Returns" = some (stratSeries ma close) := by
  simp only [btMutate]
  rw [getCol_setCol_self]

theorem nrows_btMutate (df : DataFrame) (ma close : List Cell)
    (hma : df.getCol "MA_5" = some ma) (hclose : df.getCol "Close" = some close)
    (hwf : df.Wf) : (btMutate df ma close).nrows = df.nrows := by
  have hlm : ma.length = df.nrows := getCol_length_of_wf _ _ _ hma hwf
  have hlc : close.length = df.nrows := getCol_length_of_wf _ _ _ hclose hwf
  have hne : df.cols ≠ [] := cols_ne_nil_of_getCol _ _ _ hma
  have h1 : (df.setCol "Position" (intCellCol (positionSignal ma close))).nrows = df.nrows := by
    apply nrows_setCol _ _ _ hne
    simp [intCellCol_length, positionSignal_length, hlm, hlc]
  have h2 : ((df.setCol "Position" (intCellCol (positionSignal ma close))).setCol
      "Lagged_Position" (laggedCellCol (shiftOne (positionSignal ma close)))).nrows = df.nrows := by
    rw [nrows_setCol _ _ _ (setCol_cols_ne_nil _ _ _) _, h1]
    rw [h1]
    simp [laggedCellCol_length, shiftOne_length, positionSignal_length, hlm, hlc]
  have h3 : (((df.setCol "Position" (intCellCol (positionSignal ma close))).setCol
      "Lagged_Position" (laggedCellCol (shiftOne (positionSignal ma close)))).setCol
      "Returns" (pctChange close)).nrows = df.nrows := by
    rw [nrows_setCol _ _ _ (setCol_cols_ne_nil _ _ _) _, h2]
    rw [h2, pctChange_length, hlc]
  simp only [btMutate]
  rw [nrows_setCol _ _ _ (setCol_cols_ne_nil _ _ _) _, h3]
  rw [h3, stratSeries_length ma close (by rw [hlm, hlc]), hlc]

theorem btMutate_stable (df : DataFrame) (ma close : List Cell) :
    btMutate (btMutate df ma close) ma close = btMutate df ma close := by
  have hP : (btMutate df ma close).getCol "Position" =
      some (intCellCol (positionSignal ma close)) := getCol_btMutate_position df ma close
  have hL : (btMutate df ma close).getCol "Lagged_Position" =
      some (laggedCellCol (shiftOne (positionSignal ma close))) := by
    simp only [btMutate]
    rw [getCol_setCol_ne _ _ _ _ (by decide), getCol_setCol_ne _ _ _ _ (by decide),
      getCol_setCol_self]
  have hR : (btMutate df ma close).getCol "Returns" = some (pctChange close) := by
    simp only [btMutate]
    rw [getCol_setCol_ne _ _ _ _ (by decide), getCol_setCol_self]
  have hS : (btMutate df ma close).getCol "Strategy_Returns" = some (stratSeries ma close) :=
    getCol_btMutate_strat df ma close
  conv_lhs => rw [btMutate]
  rw [setCol_eq_self _ _ _ hP]
  rw [setCol_eq_self _ _ _ hL]
  rw [setCol_eq_self _ _ _ hR]
  rw [setCol_eq_self _ _ _ hS]

/-! ## Stability of a second `run_backtest` call, and its failure condition -/

theorem backtestDf_present (df : DataFrame) (ma close : List Cell)
    (hma : df.getCol "MA_5" = some ma) (hclose : df.getCol "Close" = some close) :
    backtestDf df = btMutate df ma close := by
  rw [backtestDf, runBacktestCore_present df ma close hma hclose]

theorem run_backtest_twice (df : DataFrame) (ma close : List Cell)
    (hma : df.getCol "MA_5" = some ma) (hclose : df.getCol "Close" = some close)
    (hwf : df.Wf) :
    run_backtest (some (backtestDf df)) = run_backtest (some df) := by
  have hdf4 : backtestDf df = btMutate df ma close := backtestDf_present df ma close hma hclose
  have hma4 : (btMutate df ma close).getCol "MA_5" = some ma := by
    rw [getCol_btMutate_other df ma close _ (by decide) (by decide) (by decide) (by decide), hma]
  have hclose4 : (btMutate df ma close).getCol "Close" = some close := by
    rw [getCol_btMutate_other df ma close _ (by decide) (by decide) (by decide) (by decide), hclose]
  have hn4 : (btMutate df ma close).nrows = df.nrows := nrows_btMutate df ma close hma hclose hwf
  have hcore4 : runBacktestCore (btMutate df ma close) = runBacktestCore df := by
    rw [runBacktestCore_present _ ma close hma4 hclose4,
      runBacktestCore_present df ma close hma hclose, btMutate_stable, hn4]
  simp only [run_backtest, hdf4, hcore4]

theorem run_backtest_none_iff (df : DataFrame) (hwf : df.Wf) :
    (run_backtest (some df)).2 = none ↔
      df.getCol "Close" = none ∨ df.getCol "MA_5" = none ∨ df.nrows = 0 := by
  cases hma : df.getCol "MA_5" with
  | none =>
    simp only [run_backtest, runBacktestCore_missing df (Or.inl hma)]
    simp [hma, Except.toOption]
  | some ma =>
    cases hclose : df.getCol "Close" with
    | none =>
      simp only [run_backtest, runBacktestCore_missing df (Or.inr hclose)]
      simp [hclose, Except.toOption]
    | some close =>
      have hlm : ma.length = df.nrows := getCol_length_of_wf _ _ _ hma hwf
      have hlc : close.length = df.nrows := getCol_length_of_wf _ _ _ hclose hwf
      have hcum : (cumulativeReturns (stratSeries ma close)).length = df.nrows := by
        rw [cumulativeReturns_length, stratSeries_length ma close (by rw [hlm, hlc]), hlc]
      simp only [run_backtest, runBacktestCore_present df ma close hma hclose]
      constructor
      · intro h
        cases hlast : (cumulativeReturns (stratSeries ma close)).getLast? with
        | none =>
          have : cumulativeReturns (stratSeries ma close) = [] :=
            List.getLast?_eq_none_iff.mp hlast
          right; right
          rw [← hcum, this]
          rfl
        | some tr =>
          rw [hlast] at h
          simp [Except.toOption] at h
      · intro h
        rcases h with h | h | h
        · simp [hclose] at h
        · simp [hma] at h
        · have hnil : cumulativeReturns (stratSeries ma close) = [] := by
            rw [← List.length_eq_zero, hcum, h]
          rw [hnil]
          simp [Except.toOption]

/-! ## The rolling mean computes the specified window mean -/

theorem window_eq (xs : List Cell) (i : ℕ) (h4 : 4 ≤ i) (hi : i < xs.length) :
    (xs.take (i + 1)).drop (i - 4) =
      [xs.get ⟨i - 4, by omega⟩, xs.get ⟨i - 3, by omega⟩, xs.get ⟨i - 2, by omega⟩,
       xs.get ⟨i - 1, by omega⟩, xs.get ⟨i, hi⟩] := by
  apply List.ext_getElem?
  intro n
  rw [List.getElem?_drop]
  by_cases hn : n < 5
  · rw [List.getElem?_take_of_lt (by omega)]
    interval_cases n
    · rw [show i - 4 + 0 = i - 4 by omega]
      simp [List.getElem?_eq_getElem (show i - 4 < xs.length by omega), List.get]
    · rw [show i - 4 + 1 = i - 3 by omega]
      simp [List.getElem?_eq_getElem (show i - 3 < xs.length by omega), List.get]
    · rw [show i - 4 + 2 = i - 2 by omega]
      simp [List.getElem?_eq_getElem (show i - 2 < xs.length by omega), List.get]
    · rw [show i - 4 + 3 = i - 1 by omega]
      simp [List.getElem?_eq_getElem (show i - 1 < xs.length by omega), List.get]
    · rw [show i - 4 + 4 = i by omega]
      simp [List.getElem?_eq_getElem hi, List.get]
  · rw [List.getElem?_eq_none (l := xs.take (i + 1)) (by simp [List.length_take]; omega)]
    rw [List.getElem?_eq_none (by simp; omega)]

theorem rollingMean5_eq_spec (xs : List Cell) : rollingMean5 xs = movingAverageSpec xs := by
  apply List.map_congr_left
  intro i hi
  rw [List.mem_range] at hi
  by_cases h4 : 4 ≤ i
  · rw [if_pos h4, if_pos h4, window_eq xs i h4 hi]
    have e0 := List.getElem?_eq_getElem (show i - 4 < xs.length by omega)
    have e1 := List.getElem?_eq_getElem (show i - 3 < xs.length by omega)
    have e2 := List.getElem?_eq_getElem (show i - 2 < xs.length by omega)
    have e3 := List.getElem?_eq_getElem (show i - 1 < xs.length by omega)
    have e4 := List.getElem?_eq_getElem hi
    rw [e0, e1, e2, e3, e4]
    simp only [List.get_eq_getElem]
    cases xs[i - 4] <;> cases xs[i - 3] <;> cases xs[i - 2] <;> cases xs[i - 1] <;>
        cases xs[i] <;>
      (simp [List.all, List.filterMap]; try ring_nf)
  · rw [if_neg h4, if_neg h4]

/-! ## Idempotence of the imputation step -/

theorem fillCol_none (c : List Cell) : fillCol c none = c := by
  induction c with
  | nil => simp [fillCol]
  | cons x rest ih =>
    cases x <;> simp [fillCol] <;> simpa [fillCol] using ih

theorem fillCol_eq_self_of_all_some (c : List Cell) (m : Option ℚ)
    (h : ∀ x ∈ c, x.isSome) : fillCol c m = c := by
  induction c with
  | nil => simp [fillCol]
  | cons x rest ih =>
    cases hx : x with
    | none =>
      have := h none (by simp [hx])
      simp at this
    | some v =>
      have hrest := ih (fun y hy => h y (by simp [hy]))
      simp only [fillCol, List.map] at hrest ⊢
      rw [hrest]

theorem all_some_fillCol_some (c : List Cell) (m : ℚ) :
    ∀ x ∈ fillCol c (some m), x.isSome := by
  intro x hx
  simp only [fillCol, List.mem_map] at hx
  obtain ⟨y, _, hy⟩ := hx
  cases y <;> simp [← hy]

theorem fillFix (c : List Cell) :
    fillCol (fillCol c (colMean c)) (colMean (fillCol c (colMean c))) =
      fillCol c (colMean c) := by
  cases hm : colMean c with
  | none => simp only [hm, fillCol_none]
  | some m =>
    exact fillCol_eq_self_of_all_some _ _ (all_some_fillCol_some c m)

theorem fillna_fillna (df : DataFrame) : df.fillna.fillna = df.fillna := by
  cases df with
  | mk cols =>
    simp only [DataFrame.fillna, List.map_map]
    congr 1
    apply List.map_congr_left
    intro c _
    simp only [Function.comp]
    exact congrArg (fun v => (c.1, v)) (fillFix c.2)

theorem fillna_setCol (df : DataFrame) (n : String) (v : List Cell) :
    (df.setCol n v).fillna = df.fillna.setCol n (fillCol v (colMean v)) := by
  cases df with
  | mk cols =>
    simp only [DataFrame.fillna, DataFrame.setCol]
    congr 1
    induction cols with
    | nil => simp [setColAux]
    | cons c rest ih =>
      by_cases hc : c.1 = n
      · simp only [setColAux]
        rw [if_pos (by simpa using hc)]
        simp only [List.map, setColAux]
        rw [if_pos (by simpa using hc)]
      · simp only [setColAux]
        rw [if_neg (by simpa using hc)]
        simp only [List.map, setColAux]
        rw [if_neg (by simpa using hc), ih]

theorem getCol_fillna (df : DataFrame) (n : String) :
    df.fillna.getCol n = (df.getCol n).map (fun c => fillCol c (colMean c)) := by
  cases df with
  | mk cols =>
    simp only [DataFrame.fillna, DataFrame.getCol]
    induction cols with
    | nil => simp [List.find?]
    | cons c rest ih =>
      by_cases hc : c.1 = n
      · simp only [List.map]
        rw [List.find?_cons_of_pos _ (by simpa using hc),
          List.find?_cons_of_pos _ (by simpa using hc)]
        simp
      · simp only [List.map]
        rw [List.find?_cons_of_neg _ (by simpa using hc),
          List.find?_cons_of_neg _ (by simpa using hc)]
        exact ih

theorem preprocess_idem (df out : DataFrame)
    (h : preprocess_data (some df) = some out) :
    preprocess_data (some out) = some out := by
  simp only [preprocess_data, preprocessBody] at h ⊢
  cases hc : df.fillna.getCol "Close" with
  | none => rw [hc] at h; simp [Except.toOption] at h
  | some close =>
    rw [hc] at h
    simp only [Except.toOption] at h
    have hout : out = df.fillna.setCol "MA_5" (rollingMean5 close) := by
      cases h; rfl
    have hfo : out.fillna = (df.fillna).setCol "MA_5"
        (fillCol (rollingMean5 close) (colMean (rollingMean5 close))) := by
      rw [hout, fillna_setCol, fillna_fillna]
    have hgc : out.fillna.getCol "Close" = some close := by
      rw [hfo, getCol_setCol_ne _ _ _ _ (by decide), hc]
    rw [hgc]
    simp only [Except.toOption]
    rw [hfo, setCol_setCol, ← hout]

/-! ## Shared concrete evaluations -/

theorem preprocess_ex7 : preprocess_data (some ex7raw) = some ex7p := by
  simp +decide only [preprocess_data, preprocessBody, DataFrame.fillna, fillCol, colMean,
    DataFrame.getCol, DataFrame.setCol, setColAux, rollingMean5, ex7raw, ex7p,
    List.find?, List.map, List.filterMap, Except.toOption, Option.map, List.length, List.sum]
  norm_num [show List.range 7 = [0, 1, 2, 3, 4, 5, 6] from by decide, List.map, List.drop,
    List.take, List.filterMap, List.all, List.sum]

theorem ex7_bt_isSome : ((run_backtest (some ex7p)).2).isSome = true := rfl

/-! ## Claims -/

/-- C10: every stage function signals failure only through its return value,
never by raising: each of `preprocess_data`, `run_r_analysis`,
`run_matlab_simulation` and `run_backtest` returns the absent value when its
dataset argument is absent, and converts every internal exception into an
absent-value return (the exception-explicit renderings always produce
`Except.ok` of the plain result). -/
theorem claim_C10_fail_only_by_return :
    ∀ (odf : Option DataFrame) (rEngine : Except String (List (String × RValue)))
      (sF stF eF : Bool) (mEngine : ExternalResult),
      preprocess_data_checked odf = Except.ok (preprocess_data odf)
      ∧ run_r_analysis_checked odf rEngine = Except.ok (run_r_analysis odf rEngine)
      ∧ run_matlab_simulation_checked odf sF stF eF mEngine =
          Except.ok (run_matlab_simulation odf sF stF eF mEngine)
      ∧ run_backtest_checked odf = Except.ok (run_backtest odf)
      ∧ preprocess_data none = none
      ∧ run_r_analysis none rEngine = none
      ∧ (run_matlab_simulation none sF stF eF mEngine).result = none
      ∧ (run_backtest none).2 = none := by
  intro odf rEngine sF stF eF mEngine
  refine ⟨?_, ?_, ?_, ?_, rfl, rfl, rfl, rfl⟩
  · cases odf with
    | none => rfl
    | some df =>
      cases h : preprocessBody df <;>
        simp [preprocess_data, preprocess_data_checked, Except.toOption, h]
  · cases odf with
    | none => rfl
    | some df =>
      cases rEngine <;> simp [run_r_analysis, run_r_analysis_checked]
  · cases odf with
    | none => rfl
    | some df =>
      simp only [run_matlab_simulation, run_matlab_simulation_checked]
      split_ifs <;> rfl
  · cases odf with
    | none => rfl
    | some df =>
      rcases h : runBacktestCore df with ⟨df1, r⟩
      cases r <;> simp [run_backtest, run_backtest_checked, h, Except.toOption]

/-- C9: the MATLAB engine session is NOT released on every exit path: on the
success path and on struct-conversion failure `eng.quit()` runs, but when the
`eng.eval` call itself raises, the function returns with the acquired session
still live (the claim's "released on failure of the engine call itself" fails
on the code). -/
theorem claim_C9_engine_leak_eval :
    (run_matlab_simulation (some ex7raw) false false false []).engineReleased = true
    ∧ (run_matlab_simulation (some ex7raw) false true false []).engineReleased = true
    ∧ (run_matlab_simulation (some ex7raw) false false true []).engineAcquired = true
    ∧ (run_matlab_simulation (some ex7raw) false false true []).engineReleased = false
    ∧ (run_matlab_simulation (some ex7raw) false false true []).result = none :=
  ⟨rfl, rfl, rfl, rfl, rfl⟩

/-- C8 counterexample: on a successful run with both adapters failing, the
combined report exists, but its three top-level fields are literally named
`r_results`, `matlab_results`, `backtest_results` — the key
`statistical_results` the claim requires is not among them. -/
theorem claim_C8_counterexample :
    (mainPipeline (some ex7raw) (Except.error "script error") false false true []).map
        (fun rep => rep.map (fun e => e.1)) =
      some ["r_results", "matlab_results", "backtest_results"]
    ∧ ¬ "statistical_results" ∈
        ((mainPipeline (some ex7raw) (Except.error "script error") false false true []).getD
          []).map (fun e => e.1) := by
  obtain ⟨b, hb⟩ := Option.isSome_iff_exists.mp ex7_bt_isSome
  have hmain : mainPipeline (some ex7raw) (Except.error "script error") false false true [] =
      some (combinedResults [] [] b) := by
    simp [mainPipeline, preprocess_ex7, hb, run_r_analysis, run_matlab_simulation]
  rw [hmain]
  simp [combinedResults]

/-- C8 (amended): for every run in which loading, feature engineering and
the backtest succeed, `main` builds the combined report with exactly the
three top-level fields `r_results` (the statistical adapter's),
`matlab_results` (the simulation adapter's) and `backtest_results`, in that
order; when both external adapters fail the report is still produced, with
both external fields the empty mapping and the backtest field populated. -/
theorem claim_C8_report_shape (df dfp : DataFrame)
    (rEngine : Except String (List (String × RValue))) (sF stF eF : Bool)
    (mEngine : ExternalResult)
    (hp : preprocess_data (some df) = some dfp)
    (hb : ((run_backtest (some dfp)).2).isSome = true) :
    mainPipeline (some df) rEngine sF stF eF mEngine =
      some (combinedResults ((run_r_analysis (some dfp) rEngine).getD [])
        (((run_matlab_simulation (some dfp) sF stF eF mEngine).result).getD [])
        (((run_backtest (some dfp)).2).getD emptyMetrics))
    ∧ (mainPipeline (some df) rEngine sF stF eF mEngine).map (fun rep => rep.map (fun e => e.1)) =
        some ["r_results", "matlab_results", "backtest_results"]
    ∧ (run_r_analysis (some dfp) rEngine = none →
        (run_matlab_simulation (some dfp) sF stF eF mEngine).result = none →
        mainPipeline (some df) rEngine sF stF eF mEngine =
          some (combinedResults [] []
            (((run_backtest (some dfp)).2).getD emptyMetrics))) := by
  obtain ⟨b, hb2⟩ := Option.isSome_iff_exists.mp hb
  have hgd : ((run_backtest (some dfp)).2).getD emptyMetrics = b := by
    rw [hb2]; rfl
  have hmain : mainPipeline (some df) rEngine sF stF eF mEngine =
      some (combinedResults ((run_r_analysis (some dfp) rEngine).getD [])
        (((run_matlab_simulation (some dfp) sF stF eF mEngine).result).getD []) b) := by
    simp [mainPipeline, hp, hb2]
  refine ⟨by rw [hmain, hgd], by rw [hmain]; simp [combinedResults], ?_⟩
  intro hr hm
  rw [hmain, hr, hm, hgd]
  rfl

/-- C8 witness: the concrete scenario run with both adapters failing still
yields the report, with empty external fields and the backtest field. -/
theorem claim_C8_report_shape_witness :
    mainPipeline (some ex7raw) (Except.error "script error") false false true [] =
      some (combinedResults [] []
        (((run_backtest (some ex7p)).2).getD emptyMetrics)) := by
  refine (claim_C8_report_shape ex7raw ex7p (Except.error "script error") false false true []
    preprocess_ex7 ex7_bt_isSome).2.2 rfl rfl

theorem option_eq_some_getD {α : Type} (o : Option α) (d : α) (h : o.isSome = true) :
    o = some (o.getD d) := by
  cases o with
  | none => cases h
  | some v => rfl

/-- C4 counterexample: a one-row dataset with both required columns does not
make the backtest fail — `cumulative_returns.iloc[-1]` succeeds on a one-row
(NaN) series and a metrics value is returned, although the claim requires
failure on every dataset with fewer than 2 rows. -/
theorem claim_C4_counterexample :
    ds1.nrows = 1
    ∧ ds1.getCol "Close" ≠ none
    ∧ ds1.getCol "MA_5" ≠ none
    ∧ (run_backtest (some ds1)).2 ≠ none := by
  refine ⟨rfl, by decide, by decide, ?_⟩
  have h : ((run_backtest (some ds1)).2).isSome = true := rfl
  intro hnone
  rw [hnone] at h
  cases h

/-- C4 (amended): the backtest fails (returns the absent value) if and only
if a required column (`Close` or `MA_5`) is absent or the dataset has zero
rows; on every well-formed dataset with at least one row and both required
columns it returns a metrics value (whose numeric fields may themselves be
missing when fewer than two rows are present), and an absent dataset yields
the absent value. -/
theorem claim_C4_failure_condition (df : DataFrame) (hwf : df.Wf) :
    ((run_backtest (some df)).2 = none ↔
      df.getCol "Close" = none ∨ df.getCol "MA_5" = none ∨ df.nrows = 0)
    ∧ (run_backtest none).2 = none :=
  ⟨run_backtest_none_iff df hwf, rfl⟩

/-- C4 witness: the one-row dataset is well formed, has both columns and one
row, and the amended condition yields a present metrics value on it. -/
theorem claim_C4_failure_condition_witness :
    ds1.Wf ∧ ¬ (run_backtest (some ds1)).2 = none := by
  have h := (claim_C4_failure_condition ds1 (by decide)).1
  refine ⟨by decide, ?_⟩
  intro hnone
  rcases h.mp hnone with h1 | h1 | h1 <;> revert h1 <;> decide

/-- C2 counterexample: in the processed scenario dataset the moving average
is undefined at row 0, yet the position signal computed by the backtest
there is Short (-1) — not an undefined marker — because `np.where` maps the
false NaN comparison to the else branch. -/
theorem claim_C2_counterexample :
    ((ex7p.getCol "MA_5").getD [])[0]? = some none
    ∧ (((backtestDf ex7p).getCol "Position").getD [])[0]? = some (some (-1 : ℚ)) := by
  constructor
  · rfl
  · have hdf4 := backtestDf_present ex7p _ _
      (rfl : ex7p.getCol "MA_5" = some [none, none, none, none, some 103,
        some (521/5), some (529/5)])
      (rfl : ex7p.getCol "Close" = some [some 100, some 102, some 101, some 105,
        some 107, some 106, some 110])
    rw [hdf4, getCol_btMutate_position]
    simp [intCellCol, positionSignal, optGtB, List.zip, List.zipWith]

/-- C2 (amended): at every row where the moving average and the `Close`
column are both defined, the position is Long (+1) exactly when the moving
average strictly exceeds `Close` and Short (-1) otherwise; at every row
where the moving average is undefined the position is Short (-1) (the NaN
comparison is false), not an undefined marker.  The `Position` column the
backtest writes is exactly this signal. -/
theorem claim_C2_position_signal (df : DataFrame) (ma close : List Cell) (i : ℕ)
    (m c : Cell)
    (hma : df.getCol "MA_5" = some ma) (hclose : df.getCol "Close" = some close)
    (hm : ma[i]? = some m) (hc : close[i]? = some c) :
    (backtestDf df).getCol "Position" = some (intCellCol (positionSignal ma close))
    ∧ (positionSignal ma close)[i]? = some (if optGtB m c then 1 else -1)
    ∧ (m = none → (positionSignal ma close)[i]? = some (-1))
    ∧ (∀ mv cv : ℚ, m = some mv → c = some cv →
        (positionSignal ma close)[i]? = some (if cv < mv then 1 else -1)) := by
  have hzip : (ma.zip close)[i]? = some (m, c) := by
    simp [List.getElem?_zip_eq_some, hm, hc]
  have hsig : (positionSignal ma close)[i]? = some (if optGtB m c then 1 else -1) := by
    simp [positionSignal, List.getElem?_map, hzip]
  refine ⟨?_, hsig, ?_, ?_⟩
  · rw [backtestDf_present df ma close hma hclose, getCol_btMutate_position]
  · intro hmn
    rw [hsig, hmn]
    rfl
  · intro mv cv hmv hcv
    rw [hsig, hmv, hcv]
    simp [optGtB]

/-- C2 witness: at row 0 of the processed scenario dataset the moving
average is undefined and the computed position is Short. -/
theorem claim_C2_position_signal_witness :
    (positionSignal [none, none, none, none, some 103, some (521/5), some (529/5)]
        [some 100, some 102, some 101, some 105, some 107, some 106, some 110])[0]? =
      some (-1) :=
  (claim_C2_position_signal ex7p _ _ 0 none (some 100) rfl rfl rfl rfl).2.2.1 rfl

/-- C3 counterexample: `run_backtest` does mutate the processed dataset — on
the scenario dataset the input has no `Position` column, but after the call
the caller's frame has one (and likewise three more derived columns). -/
theorem claim_C3_counterexample :
    ex7p.getCol "Position" = none
    ∧ (backtestDf ex7p).getCol "Position" ≠ none := by
  refine ⟨rfl, ?_⟩
  rw [backtestDf_present ex7p _ _
    (rfl : ex7p.getCol "MA_5" = some [none, none, none, none, some 103,
      some (521/5), some (529/5)])
    (rfl : ex7p.getCol "Close" = some [some 100, some 102, some 101, some 105,
      some 107, some 106, some 110]), getCol_btMutate_position]
  simp

/-- C3 (amended): `run_backtest` mutates the dataset by writing exactly the
four derived columns `Position`, `Lagged_Position`, `Returns` and
`Strategy_Returns`; every other column (in particular `Close` and `MA_5`) is
left unchanged, and the call is deterministic and stable: running the
backtest again on the mutated dataset returns the same metrics and the same
frame as the first run. -/
theorem claim_C3_mutation (df : DataFrame) (ma close : List Cell) (nm : String)
    (hma : df.getCol "MA_5" = some ma) (hclose : df.getCol "Close" = some close)
    (hwf : df.Wf)
    (h1 : nm ≠ "Position") (h2 : nm ≠ "Lagged_Position") (h3 : nm ≠ "Returns")
    (h4 : nm ≠ "Strategy_Returns") :
    (backtestDf df).getCol nm = df.getCol nm
    ∧ run_backtest (some (backtestDf df)) = run_backtest (some df)
    ∧ backtestDf (backtestDf df) = backtestDf df := by
  have hdf4 := backtestDf_present df ma close hma hclose
  have h2nd := run_backtest_twice df ma close hma hclose hwf
  refine ⟨by rw [hdf4]; exact getCol_btMutate_other df ma close nm h1 h2 h3 h4, h2nd, ?_⟩
  have hfst : (run_backtest (some (backtestDf df))).1 = (run_backtest (some df)).1 :=
    congrArg Prod.fst h2nd
  have : some (backtestDf (backtestDf df)) = some (backtestDf df) := hfst
  exact Option.some.inj this

/-- C3 witness: on the processed scenario dataset, the `Close` column is
unchanged by the backtest and a second run returns identical results. -/
theorem claim_C3_mutation_witness :
    (backtestDf ex7p).getCol "Close" = ex7p.getCol "Close"
    ∧ run_backtest (some (backtestDf ex7p)) = run_backtest (some ex7p) := by
  have h := claim_C3_mutation ex7p _ _ "Close"
    (rfl : ex7p.getCol "MA_5" = some [none, none, none, none, some 103,
      some (521/5), some (529/5)])
    (rfl : ex7p.getCol "Close" = some [some 100, some 102, some 101, some 105,
      some 107, some 106, some 110])
    (by decide) (by decide) (by decide) (by decide) (by decide)
  exact ⟨h.1, h.2.1⟩

/-- C6: for every dataset the feature stage accepts, the appended `MA_5`
column is exactly the specified moving average of the processed `Close`
column: undefined at indices 0 through 3, and at every index `i ≥ 4` the
arithmetic mean of the `Close` cells at indices `i-4` through `i`
inclusive. -/
theorem claim_C6_moving_average (df out : DataFrame) (close : List Cell)
    (h : preprocess_data (some df) = some out)
    (hc : out.getCol "Close" = some close) :
    out.getCol "MA_5" = some (movingAverageSpec close) := by
  simp only [preprocess_data, preprocessBody] at h
  cases hc0 : df.fillna.getCol "Close" with
  | none => rw [hc0] at h; simp [Except.toOption] at h
  | some close0 =>
    rw [hc0] at h
    simp only [Except.toOption] at h
    have hout : out = df.fillna.setCol "MA_5" (rollingMean5 close0) := by
      cases h; rfl
    have hcl : out.getCol "Close" = some close0 := by
      rw [hout, getCol_setCol_ne _ _ _ _ (by decide), hc0]
    have hcc : close = close0 := by
      rw [hcl] at hc
      exact (Option.some.inj hc).symm
    rw [hout, getCol_setCol_self, rollingMean5_eq_spec, hcc]

/-- C6 witness: the feature stage on the scenario dataset produces exactly
the specified window means over its `Close` column. -/
theorem claim_C6_moving_average_witness :
    preprocess_data (some ex7raw) = some ex7p
    ∧ ex7p.getCol "MA_5" = some (movingAverageSpec [some 100, some 102, some 101,
        some 105, some 107, some 106, some 110]) :=
  ⟨preprocess_ex7, claim_C6_moving_average ex7raw ex7p _ preprocess_ex7 rfl⟩

/-- C7: the feature stage is idempotent — re-running it on its own output
reproduces that output exactly (the recomputed imputation changes nothing
because every fillable cell is already filled, and the recomputed `MA_5`
column overwrites the old one with the same values). -/
theorem claim_C7_idempotent (df out : DataFrame)
    (h : preprocess_data (some df) = some out) :
    preprocess_data (some out) = some out :=
  preprocess_idem df out h

/-- C7 witness: a dataset with a missing `Close` cell is imputed once, and a
second run of the feature stage reproduces the processed frame exactly. -/
theorem claim_C7_idempotent_witness :
    preprocess_data (some exMraw) = some exMp
    ∧ preprocess_data (some exMp) = some exMp := by
  have h1 : preprocess_data (some exMraw) = some exMp := by
    simp +decide only [preprocess_data, preprocessBody, DataFrame.fillna, fillCol, colMean,
      DataFrame.getCol, DataFrame.setCol, setColAux, rollingMean5, exMraw, exMp,
      List.find?, List.map, List.filterMap, Except.toOption, Option.map, List.length, List.sum]
    norm_num [show List.range 3 = [0, 1, 2] from by decide, List.map]
  exact ⟨h1, claim_C7_idempotent _ _ h1⟩

/-- C1 counterexample: on the end-to-end scenario dataset the cumulative
return after row 6 computed by the backtest is `≈ -0.09449`, not
`≈ -0.02888` as the claim states: the cumulative product runs over the
strategy returns of rows 1 through 6 (positions at rows 0-3 are Short, not
undefined), not only over rows 5 and 6. -/
theorem claim_C1_counterexample :
    ((run_backtest (some ex7p)).2).map (fun r => r.total_return) =
      some (some ((49/50) * (103/102) * (97/101) * (103/105) * (108/107) * (51/53) - 1))
    ∧ ¬ |((49 : ℚ)/50) * (103/102) * (97/101) * (103/105) * (108/107) * (51/53) - 1
          + 0.02888| < 1/100 := by
  constructor
  · simp [run_backtest, runBacktestCore, ex7p, DataFrame.getCol, DataFrame.setCol,
      setColAux, List.find?, positionSignal, shiftOne, pctChange, strategyReturns,
      cumulativeReturns, cumulGross, List.zip, List.zipWith, List.map, List.take, List.tail,
      List.getLast?, List.getLast, Except.toOption, Option.map, DataFrame.nrows, optGtB]
    norm_num
  · rw [abs_lt]
    push_neg
    intro hcontra
    norm_num at hcontra

/-- C1 (amended): on the scenario dataset (`Close` =
`[100, 102, 101, 105, 107, 106, 110]`, window 5), the moving average is
defined exactly at indices 4, 5, 6 with values 103.0, 104.2, 105.8; the
positions at ALL rows 0 through 6 are Short (rows 0-3 because the NaN
comparison is false); the strategy returns at rows 5 and 6 are
`1/107 ≈ +0.00935` and `-2/53 ≈ -0.03774`; and the cumulative return after
row 6 is the product of the gross returns of rows 1 through 6 minus one,
`≈ -0.09449`. -/
theorem claim_C1_scenario :
    preprocess_data (some ex7raw) = some ex7p
    ∧ ex7p.getCol "MA_5" =
        some [none, none, none, none, some 103, some (521/5), some (529/5)]
    ∧ (521 : ℚ)/5 = 104.2 ∧ (529 : ℚ)/5 = 105.8
    ∧ (backtestDf ex7p).getCol "Position" =
        some [some (-1 : ℚ), some (-1), some (-1), some (-1), some (-1), some (-1), some (-1)]
    ∧ (backtestDf ex7p).getCol "Strategy_Returns" =
        some [none, some (-1/50 : ℚ), some (1/102), some (-4/101), some (-2/105),
          some (1/107), some (-2/53)]
    ∧ |(1 : ℚ)/107 - 0.00935| < 1/100000
    ∧ |(2 : ℚ)/53 - 0.03774| < 1/100000
    ∧ ((run_backtest (some ex7p)).2).map (fun r => r.total_return) =
        some (some ((49/50) * (103/102) * (97/101) * (103/105) * (108/107) * (51/53) - 1))
    ∧ |((49 : ℚ)/50) * (103/102) * (97/101) * (103/105) * (108/107) * (51/53) - 1
          + 0.09449| < 1/10000 := by
  refine ⟨preprocess_ex7, rfl, by norm_num, by norm_num, ?_, ?_, ?_, ?_, ?_, ?_⟩
  · simp [backtestDf, runBacktestCore, ex7p, DataFrame.getCol, DataFrame.setCol,
      setColAux, List.find?, positionSignal, shiftOne, pctChange, strategyReturns,
      List.zip, List.zipWith, List.map, List.take, List.tail, intCellCol, laggedCellCol,
      List.getLast?, List.getLast, Option.map, optGtB, cumulativeReturns, cumulGross]
    norm_num
  · simp [backtestDf, runBacktestCore, ex7p, DataFrame.getCol, DataFrame.setCol,
      setColAux, List.find?, positionSignal, shiftOne, pctChange, strategyReturns,
      List.zip, List.zipWith, List.map, List.take, List.tail, Option.map, optGtB,
      intCellCol, laggedCellCol]
    norm_num
  · rw [abs_lt]; constructor <;> norm_num
  · rw [abs_lt]; constructor <;> norm_num
  · simp [run_backtest, runBacktestCore, ex7p, DataFrame.getCol, DataFrame.setCol,
      setColAux, List.find?, positionSignal, shiftOne, pctChange, strategyReturns,
      cumulativeReturns, cumulGross, List.zip, List.zipWith, List.map, List.take, List.tail,
      List.getLast?, List.getLast, Except.toOption, Option.map, DataFrame.nrows, optGtB]
    norm_num
  · rw [abs_lt]; constructor <;> norm_num

theorem btMetrics_sharpe (strat : List Cell) (tr : Option ℚ) (n : ℕ) :
    (btMetrics strat tr n).sharpe_ratio =
      sharpeClip (averageAnnualReturn tr n) (annualizedVol strat) := rfl

theorem btMetrics_vol (strat : List Cell) (tr : Option ℚ) (n : ℕ) :
    (btMetrics strat tr n).annualized_volatility = annualizedVol strat := rfl

theorem run_backtest_sharpe_field (df : DataFrame) (r : BacktestResults)
    (h : (run_backtest (some df)).2 = some r) :
    r.sharpe_ratio = sharpeClip r.average_annual_return r.annualized_volatility := by
  have h2 : ((runBacktestCore df).2).toOption = some r := h
  cases hma : df.getCol "MA_5" with
  | none =>
    rw [runBacktestCore_missing df (Or.inl hma)] at h2
    simp [Except.toOption] at h2
  | some ma =>
    cases hclose : df.getCol "Close" with
    | none =>
      rw [runBacktestCore_missing df (Or.inr hclose)] at h2
      simp [Except.toOption] at h2
    | some close =>
      rw [runBacktestCore_present df ma close hma hclose] at h2
      cases hlast : (cumulativeReturns (stratSeries ma close)).getLast? with
      | none =>
        rw [hlast] at h2
        simp [Except.toOption] at h2
      | some tr =>
        rw [hlast] at h2
        simp only [Except.toOption] at h2
        obtain rfl : btMetrics (stratSeries ma close) tr df.nrows = r := Option.some.inj h2
        rfl

/-- C5 (amended): for every dataset the backtest accepts, the Sharpe ratio
equals annualized return divided by annualized volatility whenever the
volatility is defined and positive and the annualized return is defined; it
is exactly 0 when the volatility is 0 or undefined; and it is undefined
(NaN) exactly when the volatility is positive but the annualized return is
undefined — which a dataset with total return below -1 and a row count not
dividing 252 realizes, so "never undefined" fails. -/
theorem claim_C5_sharpe (df : DataFrame) (r : BacktestResults)
    (h : (run_backtest (some df)).2 = some r) :
    (r.annualized_volatility = none → r.sharpe_ratio = some 0)
    ∧ (r.annualized_volatility = some 0 → r.sharpe_ratio = some 0)
    ∧ (∀ v : ℝ, r.annualized_volatility = some v → 0 < v →
        r.sharpe_ratio = (r.average_annual_return).map (fun a => a / v))
    ∧ (r.sharpe_ratio = none ↔
        (∃ v : ℝ, r.annualized_volatility = some v ∧ 0 < v)
          ∧ r.average_annual_return = none) := by
  have hs := run_backtest_sharpe_field df r h
  refine ⟨?_, ?_, ?_, ?_⟩
  · intro hv
    rw [hs, hv]
    rfl
  · intro hv
    rw [hs, hv]
    simp [sharpeClip]
  · intro v hv hvpos
    rw [hs, hv]
    simp only [sharpeClip]
    rw [if_pos hvpos]
    cases r.average_annual_return <;> rfl
  · rw [hs]
    cases hv : r.annualized_volatility with
    | none =>
      simp [sharpeClip]
    | some v =>
      by_cases hvpos : 0 < v
      · simp only [sharpeClip]
        rw [if_pos hvpos]
        cases ha : r.average_annual_return with
        | none => simp [hvpos]
        | some a => simp [hvpos]
      · simp only [sharpeClip]
        rw [if_neg hvpos]
        simp only [Option.some_ne_none, false_iff]
        rintro ⟨⟨w, hw, hwpos⟩, -⟩
        exact hvpos (Option.some.inj hw ▸ hwpos)

/-- C5 counterexample: on a processed five-row dataset with `Close` =
`[100, 300, 100, 100, 100]`, the annualized volatility is defined and
nonzero, yet the Sharpe ratio the backtest returns is undefined (NaN): the
total return is below -1 and 5 does not divide 252, so the annualized
return is NaN and the guarded division propagates it. -/
theorem claim_C5_counterexample :
    ((run_backtest (some ds5p)).2).map (fun r => r.sharpe_ratio) = some none
    ∧ ((run_backtest (some ds5p)).2).map (fun r => (r.annualized_volatility).isSome) =
        some true
    ∧ ¬ ((run_backtest (some ds5p)).2).map (fun r => r.annualized_volatility) =
        some (some 0) := by
  have hstrat : stratSeries [none, none, none, none, some 140]
      [some 100, some 300, some 100, some 100, some 100] =
      [none, some (-2 : ℚ), some (2/3), some 0, some 0] := by
    simp [stratSeries, positionSignal, shiftOne, pctChange, strategyReturns,
      optGtB, List.zip, List.zipWith, List.map, List.take, List.tail]
    norm_num
  have hlast : (cumulativeReturns (stratSeries [none, none, none, none, some 140]
      [some 100, some 300, some 100, some 100, some 100])).getLast? =
      some (some (-8/3 : ℚ)) := by
    rw [hstrat]
    simp [cumulativeReturns, cumulGross, List.getLast?, List.getLast]
    norm_num
  have hcore : (run_backtest (some ds5p)).2 =
      some (btMetrics (stratSeries [none, none, none, none, some 140]
        [some 100, some 300, some 100, some 100, some 100]) (some (-8/3 : ℚ)) 5) := by
    have : (run_backtest (some ds5p)).2 = ((runBacktestCore ds5p).2).toOption := rfl
    rw [this, runBacktestCore_present ds5p _ _
      (rfl : ds5p.getCol "MA_5" = some [none, none, none, none, some 140])
      (rfl : ds5p.getCol "Close" = some [some 100, some 300, some 100, some 100, some 100]),
      hlast]
    rfl
  have hvar : sampleVar (definedVals [none, some (-2 : ℚ), some (2/3), some 0, some 0]) =
      some (4/3) := by
    norm_num [sampleVar, definedVals, List.filterMap, List.length, List.sum, List.map]
  have hvol : annualizedVol (stratSeries [none, none, none, none, some 140]
      [some 100, some 300, some 100, some 100, some 100]) =
      some (Real.sqrt ((4/3 : ℚ) : ℝ) * Real.sqrt 252) := by
    rw [hstrat]
    simp [annualizedVol, hvar]
  have hpos : (0 : ℝ) < Real.sqrt ((4/3 : ℚ) : ℝ) * Real.sqrt 252 := by
    apply mul_pos (Real.sqrt_pos.mpr (by norm_num)) (Real.sqrt_pos.mpr (by norm_num))
  have haar : averageAnnualReturn (some (-8/3 : ℚ)) 5 = none := by
    simp only [averageAnnualReturn, Option.bind]
    rw [if_pos ⟨by norm_num, by decide⟩]
  refine ⟨?_, ?_, ?_⟩
  · rw [hcore]
    simp only [Option.map_some', btMetrics_sharpe]
    rw [haar, hvol]
    simp only [sharpeClip]
    rw [if_pos hpos]
  · rw [hcore]
    simp only [Option.map_some', btMetrics_vol]
    rw [hvol]
    rfl
  · rw [hcore]
    simp only [Option.map_some', btMetrics_vol]
    rw [hvol]
    intro hcontra
    exact absurd (Option.some.inj (Option.some.inj hcontra)).symm (ne_of_lt hpos)

/-- C5 witness: on a two-row dataset the annualized volatility is undefined
(only one defined strategy return), and the Sharpe ratio is exactly 0. -/
theorem claim_C5_sharpe_witness :
    ((run_backtest (some ds2)).2.getD emptyMetrics).sharpe_ratio = some 0 := by
  have hb : (run_backtest (some ds2)).2 =
      some ((run_backtest (some ds2)).2.getD emptyMetrics) :=
    option_eq_some_getD _ _ rfl
  exact (claim_C5_sharpe ds2 _ hb).1 rfl

end TraidQuant
